import Mathlib

/-!
Shallow embedding of `great_schools_pull.py`, a scraper that aggregates
Pennsylvania school-district ratings from GreatSchools, Niche and
SchoolDigger.  Pure string/regex logic is translated directly; the HTTP
layer is modelled by an abstract fetch oracle `String → Option String`
(mirroring `get_page_source`'s `Optional[str]` contract) and the
BeautifulSoup HTML parser by an abstract `String → Doc` function over a
flat document model carrying exactly the attributes the code inspects
(tag, class list, href, text).
-/

/-- Characters Python's `str.strip()` removes (ASCII whitespace). -/
def pyWs (c : Char) : Bool := c = ' ' || c = '\t' || c = '\n' || c = '\r' || c = '\x0b' || c = '\x0c'

/-- `str.strip()` with no argument: drop whitespace from both ends. -/
def pyStrip (s : String) : String :=
  String.mk (((s.toList.dropWhile pyWs).reverse.dropWhile pyWs).reverse)

/-- `str.strip('-')`: drop `-` from both ends. -/
def stripDash (s : String) : String :=
  String.mk (((s.toList.dropWhile (· = '-')).reverse.dropWhile (· = '-')).reverse)

/-- `str.lower()` (ASCII range, which covers every literal the code uses). -/
def pyLower (s : String) : String := String.mk (s.toList.map Char.toLower)

/-- List-level prefix test. -/
def isPrefixL : List Char → List Char → Bool
  | [], _ => true
  | _ :: _, [] => false
  | a :: as, b :: bs => a = b && isPrefixL as bs

/-- List-level substring test (`needle` occurs contiguously in the second list). -/
def substrL (needle : List Char) : List Char → Bool
  | [] => isPrefixL needle []
  | c :: rest => isPrefixL needle (c :: rest) || substrL needle rest

/-- Python's `needle in hay` on strings / `re.search` of a literal pattern. -/
def substrB (needle hay : String) : Bool := substrL needle.toList hay.toList

/-- Helper for `a.*b` regexes: `b` occurs after a gap containing no newline
(`.` does not match a newline). -/
def gapThen (b : List Char) : List Char → Bool
  | [] => isPrefixL b []
  | c :: rest => isPrefixL b (c :: rest) || (!(c = '\n') && gapThen b rest)

/-- `re.search(a.*b, s)`: some occurrence of `a` followed, with no intervening
newline, by an occurrence of `b`. -/
def searchABL (a b : List Char) : List Char → Bool
  | [] => isPrefixL a [] && gapThen b []
  | c :: rest => (isPrefixL a (c :: rest) && gapThen b (List.drop (a.length - 1) rest)) || searchABL a b rest

/-- String-level wrapper for `searchABL` (pattern `a.*b`, unanchored search). -/
def searchAB (a b s : String) : Bool := searchABL a.toList b.toList s.toList

/-- `str.replace(pat, rep)` on char lists: replace every non-overlapping
occurrence left to right (only ever called with a non-empty pattern).
`skip > 0` means that many characters of an already-replaced occurrence are
still to be dropped; this keeps the recursion structural on the list. -/
def replaceGo (pat rep : List Char) : Nat → List Char → List Char
  | 0, [] => []
  | 0, c :: rest =>
    if pat ≠ [] ∧ isPrefixL pat (c :: rest) then
      rep ++ replaceGo pat rep (pat.length - 1) rest
    else c :: replaceGo pat rep 0 rest
  | _ + 1, [] => []
  | k + 1, _ :: rest => replaceGo pat rep k rest

/-- Replacement with no pending skip. -/
def replaceL (pat rep : List Char) (l : List Char) : List Char := replaceGo pat rep 0 l

/-- Python `str.replace` (all occurrences, left to right). -/
def pyReplace (s pat rep : String) : String :=
  String.mk (replaceL pat.toList rep.toList s.toList)

/-- Numeric value of an ASCII digit. -/
def digitVal (c : Char) : Nat := c.toNat - 48

/-- `int()` of a non-empty ASCII digit string. -/
def natOfDigits (l : List Char) : Nat := l.foldl (fun acc c => 10 * acc + digitVal c) 0

/-- `re.search(r'([A-F][+-]?)', ·)`: leftmost character in `A`–`F`,
greedily extended by one `+` or `-`. -/
def gradeSearchL : List Char → Option String
  | [] => none
  | [c] => if 'A' ≤ c ∧ c ≤ 'F' then some (String.mk [c]) else none
  | c :: m :: rest =>
    if 'A' ≤ c ∧ c ≤ 'F' then
      if m = '+' ∨ m = '-' then some (String.mk [c, m]) else some (String.mk [c])
    else gradeSearchL (m :: rest)

/-- String wrapper for the letter-grade search. -/
def gradeSearch (s : String) : Option String := gradeSearchL s.toList

/-- `re.search(r'(\d+)', ·)`: leftmost maximal digit run. -/
def digitSearchL : List Char → Option (List Char)
  | [] => none
  | c :: rest =>
    if c.isDigit then some (c :: rest.takeWhile Char.isDigit)
    else digitSearchL rest

/-- Leftmost `\d+` as the matched string (SchoolDigger keeps the raw group). -/
def digitSearchStr (s : String) : Option String := (digitSearchL s.toList).map String.mk

/-- Leftmost `\d+` converted with `int(...)` (GreatSchools rating). -/
def digitSearchNat (s : String) : Option Nat := (digitSearchL s.toList).map natOfDigits

theorem dropWhile_length_le {α : Type} (p : α → Bool) : ∀ l : List α, (l.dropWhile p).length ≤ l.length
  | [] => Nat.le_refl _
  | a :: l => by
    rw [List.dropWhile_cons]
    split
    · exact Nat.le_succ_of_le (dropWhile_length_le p l)
    · exact Nat.le_refl _

/-- The rest of a `\d+(?:,\d+)*` match once its first digit has been
consumed: keep consuming digits, and keep consuming a comma when a digit
follows it, collecting the digits only (the code strips the commas with
`.replace(',', '')` before `int(...)`). -/
def commaGo : List Char → List Char
  | [] => []
  | c :: rest =>
    if c.isDigit then c :: commaGo rest
    else
      match c, rest with
      | ',', c2 :: rest2 => if c2.isDigit then c2 :: commaGo rest2 else []
      | _, _ => []

/-- `re.search(r'(\d+(?:,\d+)*)', ·)` with the commas removed from the match. -/
def commaNumberL : List Char → Option (List Char)
  | [] => none
  | c :: rest =>
    if c.isDigit then some (c :: commaGo rest)
    else commaNumberL rest

/-- Enrollment extraction: leftmost comma-grouped number as `int(...)`. -/
def enrollmentSearch (s : String) : Option Nat := (commaNumberL s.toList).map natOfDigits

/-- `re.search(r'(\d+:\d+)', ·)`: leftmost position where a digit run is
followed by `:` and another digit run. -/
def ratioSearchL : List Char → Option (List Char)
  | [] => none
  | c :: rest =>
    if c.isDigit then
      match rest.dropWhile Char.isDigit with
      | ':' :: r2 =>
        if r2.takeWhile Char.isDigit = [] then ratioSearchL rest
        else some ((c :: rest.takeWhile Char.isDigit) ++ ':' :: r2.takeWhile Char.isDigit)
      | _ => ratioSearchL rest
    else ratioSearchL rest

/-- String wrapper for the `N:N` ratio search. -/
def ratioSearch (s : String) : Option String := (ratioSearchL s.toList).map String.mk

/-- Python truthiness of an `Optional[str]` (`if not source: ...`):
`None` and the empty string are falsy. -/
def pyTruthy : Option String → Bool
  | none => false
  | some s => !(s == "")

/-- Characters `urllib.parse.quote` leaves unescaped with the default
`safe='/'`: unreserved characters plus `/`. -/
def quoteSafe (c : Char) : Bool :=
  c.isAlpha || c.isDigit || c = '-' || c = '.' || c = '_' || c = '~' || c = '/'

/-- Uppercase hex digit for percent-encoding. -/
def hexDigitU (n : Nat) : Char := Char.ofNat (if n < 10 then 48 + n else 55 + n)

/-- UTF-8 bytes of a character (as `Nat`s below 256). -/
def utf8Bytes (c : Char) : List Nat :=
  let n := c.toNat
  if n < 128 then [n]
  else if n < 2048 then [192 + n / 64, 128 + n % 64]
  else if n < 65536 then [224 + n / 4096, 128 + (n / 64) % 64, 128 + n % 64]
  else [240 + n / 262144, 128 + (n / 4096) % 64, 128 + (n / 64) % 64, 128 + n % 64]

/-- Percent-encode one byte as `%XY`. -/
def percentEncode (b : Nat) : List Char := ['%', hexDigitU (b / 16), hexDigitU (b % 16)]

/-- Concatenate a list of lists. -/
def concatAll {α : Type} (ls : List (List α)) : List α := ls.foldr (· ++ ·) []

/-- `urllib.parse.quote(s)` (default `safe='/'`). -/
def pyQuote (s : String) : String :=
  String.mk (concatAll (s.toList.map fun c =>
    if quoteSafe c then [c] else concatAll ((utf8Bytes c).map percentEncode)))

/-- Split a URL's character list at the first `://`, returning the scheme part
and what follows. -/
def findSchemeSep : List Char → Option (List Char × List Char)
  | [] => none
  | c :: rest =>
    if isPrefixL [':', '/', '/'] (c :: rest) then some ([], List.drop 2 rest)
    else (findSchemeSep rest).map fun pr => (c :: pr.1, pr.2)

/-- Does the string carry a scheme (contain `://`)? -/
def hasScheme (u : String) : Bool := (findSchemeSep u.toList).isSome

/-- `scheme://netloc` of an absolute URL. -/
def schemeHostL (u : List Char) : List Char :=
  match findSchemeSep u with
  | some pr => pr.1 ++ ':' :: '/' :: '/' :: pr.2.takeWhile (· != '/')
  | none => u

/-- Model of `urllib.parse.urljoin` restricted to the shapes arising here:
the base is an absolute URL with empty path, and no dot-segment
normalisation is performed. Absolute hrefs are returned unchanged,
`//`-prefixed hrefs inherit the base's scheme, `/`-prefixed hrefs are
appended to the base's `scheme://netloc`, and other hrefs are resolved
against the (empty) base path. -/
def urljoin (base href : String) : String :=
  if hasScheme href then href
  else if isPrefixL ['/', '/'] href.toList then
    String.mk (base.toList.takeWhile (· != ':') ++ [':']) ++ href
  else if isPrefixL ['/'] href.toList then String.mk (schemeHostL base.toList) ++ href
  else String.mk (schemeHostL base.toList) ++ "/" ++ href

/-- An HTML element as far as the code inspects one: tag name, the
(multi-valued) `class` attribute, the `href` attribute, and `get_text()`. -/
structure Elem where
  tag : String
  classes : List String
  href : Option String
  text : String
deriving DecidableEq

/-- A navigable text node (`soup.find(text=...)` result): its own text and
its parent's `get_text()` when a parent exists. -/
structure TextNode where
  text : String
  parentText : Option String
deriving DecidableEq

/-- A parsed page: elements and text nodes in document order. BeautifulSoup
itself is modelled as an abstract `String → Doc` function. -/
structure Doc where
  elems : List Elem
  texts : List TextNode
deriving DecidableEq

/-- `soup.find('div', class_=pat)`: first `div` one of whose classes
matches the pattern. -/
def findDiv (pat : String → Bool) (d : Doc) : Option Elem :=
  d.elems.find? fun e => e.tag == "div" && e.classes.any pat

/-- `soup.find_all('a', href=pat)`: all anchors whose `href` attribute is
present and matches the pattern. -/
def findLinks (pat : String → Bool) (d : Doc) : List Elem :=
  d.elems.filter fun e => e.tag == "a" && (match e.href with | some h => pat h | none => false)

/-- `soup.find(text=pat)`: first text node matching the pattern. -/
def findTextNode (pat : String → Bool) (d : Doc) : Option TextNode :=
  d.texts.find? fun t => pat t.text

/-- The shared link-scanning loop: over the pattern-filtered links, return
`urljoin(base, link['href'])` for the first link whose visible text contains
the district name case-insensitively. -/
def scanLinks (base district_name : String) (links : List Elem) : Option String :=
  links.findSome? fun l =>
    if substrB (pyLower district_name) (pyLower l.text) then some (urljoin base (l.href.getD ""))
    else none

/-- Class pattern `re.compile(r'rating|score')` (GreatSchools rating badge). -/
def classRatingScore (c : String) : Bool := substrB "rating" c || substrB "score" c

/-- Class pattern `re.compile(r'grade|rating')` (Niche grade badge). -/
def classGradeRating (c : String) : Bool := substrB "grade" c || substrB "rating" c

/-- Text pattern `re.compile(r'students|enrollment', re.I)`. -/
def textStudentsEnrollment (s : String) : Bool :=
  substrB "students" (pyLower s) || substrB "enrollment" (pyLower s)

/-- Text pattern `re.compile(r'student.*teacher|teacher.*student', re.I)`. -/
def textStudentTeacher (s : String) : Bool :=
  searchAB "student" "teacher" (pyLower s) || searchAB "teacher" "student" (pyLower s)

/-- Text pattern `re.compile(r'rank|rating', re.I)` (SchoolDigger). -/
def textRankRating (s : String) : Bool :=
  substrB "rank" (pyLower s) || substrB "rating" (pyLower s)

/-- Href pattern `re.compile(r'/pennsylvania/.*-district/')` (GreatSchools). -/
def hrefPAGS (h : String) : Bool := searchAB "/pennsylvania/" "-district/" h

/-- Href pattern `re.compile(r'/k12/d/.*pennsylvania')` (Niche search results). -/
def hrefPANiche (h : String) : Bool := searchAB "/k12/d/" "pennsylvania" h

/-- Href pattern `re.compile(r'/go/PA/district\.aspx')` (SchoolDigger). -/
def hrefSDPattern (h : String) : Bool := substrB "/go/PA/district.aspx" h

/-- The fetch oracle: `get_page_source`'s interface, `url ↦ Optional[str]`. -/
abbrev Fetch := String → Option String

/-- The HTML parser oracle: `BeautifulSoup(source, 'html.parser')`. -/
abbrev Parse := String → Doc

def gsBase : String := "https://www.greatschools.org"

def nicheBase : String := "https://www.niche.com"

def sdBase : String := "https://www.schooldigger.com"

/-- Field map returned by `GreatSchoolsScraper.scrape_district_data`
(a Python dict read back with `.get`, so every key is optional). -/
structure GSData where
  greatschools_rating : Option Nat
  enrollment : Option Nat
  student_teacher_ratio : Option String
  greatschools_url : Option String
deriving DecidableEq

/-- The empty dict `{}`. -/
def GSData.empty : GSData := ⟨none, none, none, none⟩

/-- Field map returned by `NicheScraper.scrape_district_data`. -/
structure NicheData where
  niche_rating : Option String
  niche_url : Option String
deriving DecidableEq

/-- The empty dict `{}`. -/
def NicheData.empty : NicheData := ⟨none, none⟩

/-- Field map returned by `SchoolDiggerScraper.scrape_district_data`. -/
structure SDData where
  schooldigger_rating : Option String
  schooldigger_url : Option String
deriving DecidableEq

/-- The empty dict `{}`. -/
def SDData.empty : SDData := ⟨none, none⟩

namespace GreatSchoolsScraper

/-- `GreatSchoolsScraper.search_district`: build the query-string search URL,
fetch it, filter anchors on the Pennsylvania district pattern, return the
first whose text contains the district name (case-insensitively). A `None`
or empty page (`if not source`) yields `None`. -/
def search_district (fetch : Fetch) (parse : Parse) (district_name state : String) : Option String :=
  let search_url := gsBase ++ "/search/search.page"
  let full_url := search_url ++ "?" ++ "q=" ++ pyQuote district_name ++ "&state=" ++ pyQuote state ++ "&level=" ++ pyQuote "district"
  match fetch full_url with
  | none => none
  | some source =>
    if source = "" then none
    else scanLinks gsBase district_name (findLinks hrefPAGS (parse source))

/-- `GreatSchoolsScraper.scrape_district_data`: fetch the district page and
opportunistically extract rating, enrollment and student/teacher ratio;
the source URL is stored last. A falsy page yields `{}`. -/
def scrape_district_data (fetch : Fetch) (parse : Parse) (district_url : String) : GSData :=
  match fetch district_url with
  | none => GSData.empty
  | some source =>
    if source = "" then GSData.empty
    else
      let soup := parse source
      let d1 := match findDiv classRatingScore soup with
        | some rating_elem =>
          match digitSearchNat (pyStrip rating_elem.text) with
          | some n => { GSData.empty with greatschools_rating := some n }
          | none => GSData.empty
        | none => GSData.empty
      let d2 := match findTextNode textStudentsEnrollment soup with
        | some tn =>
          let enrollment_text := match tn.parentText with | some pt => pt | none => tn.text
          match enrollmentSearch enrollment_text with
          | some n => { d1 with enrollment := some n }
          | none => d1
        | none => d1
      let d3 := match findTextNode textStudentTeacher soup with
        | some tn =>
          let ratio_text := match tn.parentText with | some pt => pt | none => tn.text
          match ratioSearch ratio_text with
          | some r => { d2 with student_teacher_ratio := some r }
          | none => d2
        | none => d2
      { d3 with greatschools_url := some district_url }

end GreatSchoolsScraper

namespace NicheScraper

/-- The slug built on line 137:
`district_name.lower().replace(' ', '-').replace('school-district', '').strip('-')`. -/
def district_slug (district_name : String) : String :=
  stripDash (pyReplace (pyReplace (pyLower district_name) " " "-") "school-district" "")

/-- The guessed direct URL `f"{base_url}/k12/d/{district_slug}-{state}/"`. -/
def potential_url (district_name state : String) : String :=
  nicheBase ++ "/k12/d/" ++ district_slug district_name ++ "-" ++ state ++ "/"

/-- The keyword-search-and-scan fallback (lines 145–160): fetch the
`/search/k12/` results page and scan its anchors with the
`/k12/d/.*pennsylvania` pattern. -/
def search_fallback (fetch : Fetch) (parse : Parse) (district_name state : String) : Option String :=
  let search_url := nicheBase ++ "/search/k12/"
  let full_url := search_url ++ "?" ++ "q=" ++ pyQuote (district_name ++ " " ++ state)
  match fetch full_url with
  | none => none
  | some source =>
    if source = "" then none
    else scanLinks nicheBase district_name (findLinks hrefPANiche (parse source))

/-- `NicheScraper.search_district`: guess the direct slug URL; accept it when
the fetched body is truthy and does not contain `"404"`
(`if source and "404" not in source`), otherwise fall back to the search. -/
def search_district (fetch : Fetch) (parse : Parse) (district_name state : String) : Option String :=
  match fetch (potential_url district_name state) with
  | some source =>
    if source ≠ "" ∧ substrB "404" source = false then some (potential_url district_name state)
    else search_fallback fetch parse district_name state
  | none => search_fallback fetch parse district_name state

/-- `NicheScraper.scrape_district_data`: fetch the page, extract the first
letter grade found in the first `grade|rating` div, store the source URL.
A falsy page yields `{}`. -/
def scrape_district_data (fetch : Fetch) (parse : Parse) (district_url : String) : NicheData :=
  match fetch district_url with
  | none => NicheData.empty
  | some source =>
    if source = "" then NicheData.empty
    else
      let d1 := match findDiv classGradeRating (parse source) with
        | some grade_elem =>
          match gradeSearch (pyStrip grade_elem.text) with
          | some g => { NicheData.empty with niche_rating := some g }
          | none => NicheData.empty
        | none => NicheData.empty
      { d1 with niche_url := some district_url }

end NicheScraper

namespace SchoolDiggerScraper

/-- `SchoolDiggerScraper.search_district` (the `state` parameter exists in the
source but is unused by the body). -/
def search_district (fetch : Fetch) (parse : Parse) (district_name state : String) : Option String :=
  let search_url := sdBase ++ "/go/PA/search.aspx"
  let full_url := search_url ++ "?" ++ "searchterm=" ++ pyQuote district_name ++ "&searchtype=" ++ pyQuote "district"
  match fetch full_url with
  | none => none
  | some source =>
    if source = "" then none
    else scanLinks sdBase district_name (findLinks hrefSDPattern (parse source))

/-- `SchoolDiggerScraper.scrape_district_data`: first text node matching
`rank|rating` (case-insensitive), first digit run of its parent's text kept
as a string, plus the source URL. A falsy page yields `{}`. -/
def scrape_district_data (fetch : Fetch) (parse : Parse) (district_url : String) : SDData :=
  match fetch district_url with
  | none => SDData.empty
  | some source =>
    if source = "" then SDData.empty
    else
      let d1 := match findTextNode textRankRating (parse source) with
        | some tn =>
          let ranking_text := match tn.parentText with | some pt => pt | none => tn.text
          match digitSearchStr ranking_text with
          | some r => { SDData.empty with schooldigger_rating := some r }
          | none => SDData.empty
        | none => SDData.empty
      { d1 with schooldigger_url := some district_url }

end SchoolDiggerScraper

/-- The `SchoolDistrictData` dataclass. -/
structure SchoolDistrictData where
  district_name : String
  county : String
  greatschools_rating : Option Nat
  greatschools_url : Option String
  niche_rating : Option String
  niche_url : Option String
  schooldigger_rating : Option String
  schooldigger_url : Option String
  enrollment : Option Nat
  student_teacher_ratio : Option String
  last_updated : Option String
deriving DecidableEq

namespace PASchoolDistrictScraper

/-- One iteration of the aggregator's loop body (lines 255–284): create the
record with name, empty county and the current timestamp, then merge each
scraper's fields when its `search_district` found a URL. -/
def process_district (fetch : Fetch) (parse : Parse) (district_name ts : String) : SchoolDistrictData :=
  let d0 : SchoolDistrictData :=
    ⟨district_name, "", none, none, none, none, none, none, none, none, some ts⟩
  let d1 := match GreatSchoolsScraper.search_district fetch parse district_name "PA" with
    | some gs_u =>
      let gs_data := GreatSchoolsScraper.scrape_district_data fetch parse gs_u
      { d0 with greatschools_rating := gs_data.greatschools_rating,
                greatschools_url := gs_data.greatschools_url,
                enrollment := gs_data.enrollment,
                student_teacher_ratio := gs_data.student_teacher_ratio }
    | none => d0
  let d2 := match NicheScraper.search_district fetch parse district_name "pennsylvania" with
    | some n_u =>
      let niche_data := NicheScraper.scrape_district_data fetch parse n_u
      { d1 with niche_rating := niche_data.niche_rating, niche_url := niche_data.niche_url }
    | none => d1
  let d3 := match SchoolDiggerScraper.search_district fetch parse district_name "PA" with
    | some sd_u =>
      let sd_data := SchoolDiggerScraper.scrape_district_data fetch parse sd_u
      { d2 with schooldigger_rating := sd_data.schooldigger_rating,
                schooldigger_url := sd_data.schooldigger_url }
    | none => d2
  d3

/-- The aggregator loop. `now i` is the `pd.Timestamp.now().isoformat()`
taken when the `i`-th district's record is created. The second component is
the chronological list of file writes performed by `save_results`: a
`("temp_" ++ output_file, snapshot)` write after every tenth district and a
final `(output_file, all results)` write; each write replaces the whole
file. -/
def scrape_aux (fetch : Fetch) (parse : Parse) (now : Nat → String) (output_file : String) :
    Nat → List String → List SchoolDistrictData →
    List SchoolDistrictData × List (String × List SchoolDistrictData)
  | _, [], results => (results, [(output_file, results)])
  | i, district_name :: rest, results =>
    let d := process_district fetch parse district_name (now i)
    let results2 := results ++ [d]
    let rec_out := scrape_aux fetch parse now output_file (i + 1) rest results2
    (rec_out.1,
      (if (i + 1) % 10 = 0 then [("temp_" ++ output_file, results2)] else []) ++ rec_out.2)

/-- `PASchoolDistrictScraper.scrape_all_districts`: returns the result list
and the chronological file writes. -/
def scrape_all_districts (fetch : Fetch) (parse : Parse) (now : Nat → String)
    (district_names : List String) (output_file : String) :
    List SchoolDistrictData × List (String × List SchoolDistrictData) :=
  scrape_aux fetch parse now output_file 0 district_names []

/-- The records produced from the suffix of the input starting at index `i`. -/
def process_from (fetch : Fetch) (parse : Parse) (now : Nat → String) :
    Nat → List String → List SchoolDistrictData
  | _, [] => []
  | i, n :: rest => process_district fetch parse n (now i) :: process_from fetch parse now (i + 1) rest

end PASchoolDistrictScraper

/-- Drop the `last_updated` field (the only nondeterministic one). -/
def eraseTs (d : SchoolDistrictData) : SchoolDistrictData := { d with last_updated := none }

/-- Drop the timestamps from a file-write event. -/
def eraseEvTs (e : String × List SchoolDistrictData) : String × List SchoolDistrictData :=
  (e.1, e.2.map eraseTs)

/-- A single-letter grade `A`–`F` optionally suffixed by `+` or `-`
(the token language named by the specification). -/
def isGradeToken (s : String) : Bool :=
  match s.toList with
  | [c] => if 'A' ≤ c ∧ c ≤ 'F' then true else false
  | [c, m] => if ('A' ≤ c ∧ c ≤ 'F') ∧ (m = '+' ∨ m = '-') then true else false
  | _ => false

/-- Outcome of one HTTP GET attempt: a response with status and body, or a
transport failure (connection error, timeout — anything `requests` raises
before a response exists). -/
inductive HttpAttempt where
  | response (status : Nat) (body : String)
  | failure
deriving DecidableEq

/-- `requests.Response.raise_for_status()` raises exactly for 4xx and 5xx
status codes. -/
def raiseForStatus (status : Nat) : Bool := 400 ≤ status && status < 600

/-- `BaseScraper.get_page_source`: one GET inside `try/except`. The
transport oracle `http url k` is the outcome the network would give the
`k`-th GET of `url` in this call; the code issues a single GET, so only
attempt `0` is ever consulted. A transport failure or a raising status is
caught and logged, giving `None`; otherwise the body is returned. The
surrounding `try/except Exception` means no exception ever escapes. -/
def get_page_source (http : String → Nat → HttpAttempt) (url : String) : Option String :=
  match http url 0 with
  | .failure => none
  | .response status body => if raiseForStatus status then none else some body

namespace PASchoolDistrictScraper

theorem process_district_name (fetch : Fetch) (parse : Parse) (district_name ts : String) :
    (process_district fetch parse district_name ts).district_name = district_name := by
  unfold process_district
  cases GreatSchoolsScraper.search_district fetch parse district_name "PA" <;>
    cases NicheScraper.search_district fetch parse district_name "pennsylvania" <;>
      cases SchoolDiggerScraper.search_district fetch parse district_name "PA" <;> rfl

theorem process_district_eraseTs (fetch : Fetch) (parse : Parse) (district_name ts ts' : String) :
    eraseTs (process_district fetch parse district_name ts) =
      eraseTs (process_district fetch parse district_name ts') := by
  unfold process_district
  cases GreatSchoolsScraper.search_district fetch parse district_name "PA" <;>
    cases NicheScraper.search_district fetch parse district_name "pennsylvania" <;>
      cases SchoolDiggerScraper.search_district fetch parse district_name "PA" <;> rfl

theorem process_from_map_name (fetch : Fetch) (parse : Parse) (now : Nat → String) :
    ∀ (ns : List String) (i : Nat),
      (process_from fetch parse now i ns).map (fun d => d.district_name) = ns
  | [], _ => rfl
  | n :: rest, i => by
    simp [process_from, process_district_name, process_from_map_name fetch parse now rest (i + 1)]

theorem process_from_length (fetch : Fetch) (parse : Parse) (now : Nat → String) :
    ∀ (ns : List String) (i : Nat), (process_from fetch parse now i ns).length = ns.length
  | [], _ => rfl
  | _ :: rest, i => by simp [process_from, process_from_length fetch parse now rest (i + 1)]

theorem process_from_take (fetch : Fetch) (parse : Parse) (now : Nat → String) :
    ∀ (ns : List String) (i k : Nat),
      process_from fetch parse now i (ns.take k) = (process_from fetch parse now i ns).take k
  | [], _, _ => by simp [process_from]
  | _ :: _, _, 0 => by simp [process_from]
  | n :: rest, i, k + 1 => by
    simp [process_from, process_from_take fetch parse now rest (i + 1) k]

theorem process_from_eraseTs (fetch : Fetch) (parse : Parse) (now now' : Nat → String) :
    ∀ (ns : List String) (i : Nat),
      (process_from fetch parse now i ns).map eraseTs =
        (process_from fetch parse now' i ns).map eraseTs
  | [], _ => rfl
  | n :: rest, i => by
    simp only [process_from, List.map_cons]
    rw [process_district_eraseTs fetch parse n (now i) (now' i),
      process_from_eraseTs fetch parse now now' rest (i + 1)]

theorem scrape_aux_fst (fetch : Fetch) (parse : Parse) (now : Nat → String) (output_file : String) :
    ∀ (ns : List String) (i : Nat) (acc : List SchoolDistrictData),
      (scrape_aux fetch parse now output_file i ns acc).1 = acc ++ process_from fetch parse now i ns
  | [], _, acc => by simp [scrape_aux, process_from]
  | n :: rest, i, acc => by
    simp only [scrape_aux, process_from]
    rw [scrape_aux_fst fetch parse now output_file rest (i + 1) (acc ++ [process_district fetch parse n (now i)])]
    simp

theorem scrape_aux_snd (fetch : Fetch) (parse : Parse) (now : Nat → String) (output_file : String) :
    ∀ (ns : List String) (i : Nat) (acc : List SchoolDistrictData),
      (scrape_aux fetch parse now output_file i ns acc).2 =
        ((List.range ns.length).filterMap fun j =>
          if (i + j + 1) % 10 = 0 then
            some ("temp_" ++ output_file, acc ++ process_from fetch parse now i (ns.take (j + 1)))
          else none)
        ++ [(output_file, acc ++ process_from fetch parse now i ns)]
  | [], i, acc => by simp [scrape_aux, process_from]
  | n :: rest, i, acc => by
    simp only [scrape_aux]
    rw [scrape_aux_snd fetch parse now output_file rest (i + 1) (acc ++ [process_district fetch parse n (now i)])]
    rw [List.length_cons, List.range_succ_eq_map, List.filterMap_cons, List.filterMap_map]
    have hz : (i + 0 + 1) % 10 = (i + 1) % 10 := by omega
    have hfun : ∀ j : Nat,
        ((fun j => if (i + j + 1) % 10 = 0 then
            some ("temp_" ++ output_file,
              acc ++ process_from fetch parse now i ((n :: rest).take (j + 1)))
          else none) ∘ Nat.succ) j =
        (fun j => if (i + 1 + j + 1) % 10 = 0 then
            some ("temp_" ++ output_file,
              (acc ++ [process_district fetch parse n (now i)]) ++
                process_from fetch parse now (i + 1) (rest.take (j + 1)))
          else none) j := by
      intro j
      have harith : i + (j + 1) + 1 = i + 1 + j + 1 := by omega
      simp only [Function.comp, Nat.succ_eq_add_one, harith, List.take_succ_cons, process_from,
        List.append_assoc, List.cons_append, List.nil_append]
    rw [List.filterMap_congr (fun j _ => hfun j)]
    by_cases h10 : (i + 1) % 10 = 0
    · simp only [hz, h10, if_pos, List.take_succ_cons, List.take_zero, process_from,
        List.append_assoc, List.cons_append, List.nil_append]
      try simp [process_from]
    · simp only [hz, h10, if_neg, List.take_succ_cons, process_from]
      try simp [process_from, h10]

end PASchoolDistrictScraper

theorem toList_mk (l : List Char) : (String.mk l).toList = l := rfl

theorem scanLinks_eq_some (base district_name : String) :
    ∀ (links : List Elem) (u : String), scanLinks base district_name links = some u →
      ∃ l ∈ links, u = urljoin base (l.href.getD "")
  | [], u => by intro h; simp [scanLinks] at h
  | l :: rest, u => by
    intro h
    rw [scanLinks, List.findSome?_cons] at h
    by_cases hc : substrB (pyLower district_name) (pyLower l.text) = true
    · rw [if_pos hc] at h
      simp only [] at h
      exact ⟨l, List.mem_cons_self l rest, (Option.some_inj.mp h).symm⟩
    · rw [if_neg hc] at h
      simp only [] at h
      obtain ⟨l', hl', hu⟩ := scanLinks_eq_some base district_name rest u h
      exact ⟨l', List.mem_cons_of_mem l hl', hu⟩

theorem mem_findLinks (pat : String → Bool) (d : Doc) (l : Elem) (h : l ∈ findLinks pat d) :
    ∃ href, l.href = some href ∧ pat href = true := by
  unfold findLinks at h
  have hp := List.of_mem_filter h
  simp only [Bool.and_eq_true] at hp
  cases hhref : l.href with
  | none => rw [hhref] at hp; simp at hp
  | some href => rw [hhref] at hp; exact ⟨href, rfl, hp.2⟩

theorem scanLinks_findLinks_some (base district_name : String) (pat : String → Bool) (d : Doc)
    (u : String) (h : scanLinks base district_name (findLinks pat d) = some u) :
    ∃ href, pat href = true ∧ u = urljoin base href := by
  obtain ⟨l, hl, hu⟩ := scanLinks_eq_some base district_name (findLinks pat d) u h
  obtain ⟨href, hhref, hpat⟩ := mem_findLinks pat d l hl
  refine ⟨href, hpat, ?_⟩
  rw [hu, hhref]
  rfl

theorem gradeSearchL_isGradeToken :
    ∀ (l : List Char) (g : String), gradeSearchL l = some g → isGradeToken g = true
  | [], g => by intro h; simp [gradeSearchL] at h
  | [c], g => by
    intro h
    simp only [gradeSearchL] at h
    by_cases hc : 'A' ≤ c ∧ c ≤ 'F'
    · rw [if_pos hc] at h
      rw [← Option.some_inj.mp h]
      show (if 'A' ≤ c ∧ c ≤ 'F' then true else false) = true
      rw [if_pos hc]
    · rw [if_neg hc] at h
      exact absurd h (by simp)
  | c :: m :: rest, g => by
    intro h
    simp only [gradeSearchL] at h
    by_cases hc : 'A' ≤ c ∧ c ≤ 'F'
    · rw [if_pos hc] at h
      by_cases hm : m = '+' ∨ m = '-'
      · rw [if_pos hm] at h
        rw [← Option.some_inj.mp h]
        show (if ('A' ≤ c ∧ c ≤ 'F') ∧ (m = '+' ∨ m = '-') then true else false) = true
        rw [if_pos ⟨hc, hm⟩]
      · rw [if_neg hm] at h
        rw [← Option.some_inj.mp h]
        show (if 'A' ≤ c ∧ c ≤ 'F' then true else false) = true
        rw [if_pos hc]
    · rw [if_neg hc] at h
      exact gradeSearchL_isGradeToken (m :: rest) g h

theorem gradeSearchL_isSome_iff :
    ∀ l : List Char, (gradeSearchL l).isSome = true ↔ ∃ c ∈ l, 'A' ≤ c ∧ c ≤ 'F'
  | [] => by simp [gradeSearchL]
  | [c] => by
    by_cases hc : 'A' ≤ c ∧ c ≤ 'F'
    · constructor
      · intro _; exact ⟨c, List.mem_cons_self c [], hc⟩
      · intro _; simp [gradeSearchL, hc]
    · constructor
      · intro habs; simp [gradeSearchL, hc] at habs
      · intro ⟨x, hx, hgx⟩
        rcases List.mem_cons.mp hx with hxc | hxr
        · exact absurd (hxc ▸ hgx) hc
        · exact absurd hxr (List.not_mem_nil x)
  | c :: m :: rest => by
    by_cases hc : 'A' ≤ c ∧ c ≤ 'F'
    · constructor
      · intro _; exact ⟨c, List.mem_cons_self c (m :: rest), hc⟩
      · intro _
        by_cases hm : m = '+' ∨ m = '-' <;> simp [gradeSearchL, hc, hm]
    · have hstep : gradeSearchL (c :: m :: rest) = gradeSearchL (m :: rest) := by
        simp [gradeSearchL, hc]
      rw [hstep, gradeSearchL_isSome_iff (m :: rest)]
      constructor
      · intro ⟨x, hx, hgx⟩; exact ⟨x, List.mem_cons_of_mem c hx, hgx⟩
      · intro ⟨x, hx, hgx⟩
        rcases List.mem_cons.mp hx with hxc | hxr
        · exact absurd (hxc ▸ hgx) hc
        · exact ⟨x, hxr, hgx⟩

theorem gs_search_none_of_fetch_none (fetch : Fetch) (parse : Parse) (district_name state : String)
    (hf : ∀ u, fetch u = none) :
    GreatSchoolsScraper.search_district fetch parse district_name state = none := by
  simp [GreatSchoolsScraper.search_district, hf]

theorem niche_search_none_of_fetch_none (fetch : Fetch) (parse : Parse) (district_name state : String)
    (hf : ∀ u, fetch u = none) :
    NicheScraper.search_district fetch parse district_name state = none := by
  simp [NicheScraper.search_district, NicheScraper.search_fallback, hf]

theorem sd_search_none_of_fetch_none (fetch : Fetch) (parse : Parse) (district_name state : String)
    (hf : ∀ u, fetch u = none) :
    SchoolDiggerScraper.search_district fetch parse district_name state = none := by
  simp [SchoolDiggerScraper.search_district, hf]

theorem process_district_blank (fetch : Fetch) (parse : Parse) (district_name ts : String)
    (hf : ∀ u, fetch u = none) :
    PASchoolDistrictScraper.process_district fetch parse district_name ts =
      ⟨district_name, "", none, none, none, none, none, none, none, none, some ts⟩ := by
  unfold PASchoolDistrictScraper.process_district
  rw [gs_search_none_of_fetch_none fetch parse district_name "PA" hf,
    niche_search_none_of_fetch_none fetch parse district_name "pennsylvania" hf,
    sd_search_none_of_fetch_none fetch parse district_name "PA" hf]

theorem process_from_blank (fetch : Fetch) (parse : Parse) (now : Nat → String)
    (hf : ∀ u, fetch u = none) :
    ∀ (ns : List String) (i : Nat),
      PASchoolDistrictScraper.process_from fetch parse now i ns =
        (ns.enumFrom i).map
          (fun p => ⟨p.2, "", none, none, none, none, none, none, none, none, some (now p.1)⟩)
  | [], _ => rfl
  | n :: rest, i => by
    rw [PASchoolDistrictScraper.process_from, List.enumFrom_cons, List.map_cons,
      process_district_blank fetch parse n (now i) hf,
      process_from_blank fetch parse now hf rest (i + 1)]

theorem scrape_aux_erase (fetch : Fetch) (parse : Parse) (now now' : Nat → String)
    (output_file : String) :
    ∀ (ns : List String) (i : Nat) (acc acc' : List SchoolDistrictData),
      acc.map eraseTs = acc'.map eraseTs →
      (PASchoolDistrictScraper.scrape_aux fetch parse now output_file i ns acc).1.map eraseTs =
        (PASchoolDistrictScraper.scrape_aux fetch parse now' output_file i ns acc').1.map eraseTs ∧
      (PASchoolDistrictScraper.scrape_aux fetch parse now output_file i ns acc).2.map eraseEvTs =
        (PASchoolDistrictScraper.scrape_aux fetch parse now' output_file i ns acc').2.map eraseEvTs
  | [], i, acc, acc', h => by
    constructor
    · simpa [PASchoolDistrictScraper.scrape_aux] using h
    · simp [PASchoolDistrictScraper.scrape_aux, eraseEvTs, h]
  | n :: rest, i, acc, acc', h => by
    have hacc2 : (acc ++ [PASchoolDistrictScraper.process_district fetch parse n (now i)]).map eraseTs =
        (acc' ++ [PASchoolDistrictScraper.process_district fetch parse n (now' i)]).map eraseTs := by
      simp [h, PASchoolDistrictScraper.process_district_eraseTs fetch parse n (now i) (now' i)]
    obtain ⟨ih1, ih2⟩ := scrape_aux_erase fetch parse now now' output_file rest (i + 1) _ _ hacc2
    constructor
    · simpa [PASchoolDistrictScraper.scrape_aux] using ih1
    · by_cases h10 : (i + 1) % 10 = 0
      · simp only [PASchoolDistrictScraper.scrape_aux, h10, if_pos, List.map_append]
        rw [ih2]
        simp [eraseEvTs, hacc2, h10]
      · simp only [PASchoolDistrictScraper.scrape_aux, h10, if_neg, List.map_append]
        rw [ih2]
        simp [h10]

/-- C9: for every input list, the aggregator's result list pairs up with the
input one-to-one: same length, input order, and the `i`-th record's
`district_name` is the `i`-th input name — duplicates included, since this
holds for any list. -/
theorem claim9_order_and_names (fetch : Fetch) (parse : Parse) (now : Nat → String)
    (district_names : List String) (output_file : String) :
    ((PASchoolDistrictScraper.scrape_all_districts fetch parse now district_names output_file).1).map
        (fun d => d.district_name) = district_names := by
  unfold PASchoolDistrictScraper.scrape_all_districts
  rw [PASchoolDistrictScraper.scrape_aux_fst, List.nil_append]
  exact PASchoolDistrictScraper.process_from_map_name fetch parse now district_names 0

/-- C8: with the fetch and parse oracles fixed, two runs differing only in
the wall clock (`now` vs `now'`) produce the same results and the same file
writes once the `last_updated` field is erased. -/
theorem claim8_deterministic_but_ts (fetch : Fetch) (parse : Parse) (now now' : Nat → String)
    (district_names : List String) (output_file : String) :
    (PASchoolDistrictScraper.scrape_all_districts fetch parse now district_names output_file).1.map eraseTs =
      (PASchoolDistrictScraper.scrape_all_districts fetch parse now' district_names output_file).1.map eraseTs ∧
    (PASchoolDistrictScraper.scrape_all_districts fetch parse now district_names output_file).2.map eraseEvTs =
      (PASchoolDistrictScraper.scrape_all_districts fetch parse now' district_names output_file).2.map eraseEvTs :=
  scrape_aux_erase fetch parse now now' output_file district_names 0 [] [] rfl

/-- C3: when every fetch fails, every district still yields a record whose
only populated fields are the district name and the timestamp. -/
theorem claim3_record_despite_failures (fetch : Fetch) (parse : Parse) (now : Nat → String)
    (district_names : List String) (output_file : String) (hf : ∀ u, fetch u = none) :
    (PASchoolDistrictScraper.scrape_all_districts fetch parse now district_names output_file).1 =
      district_names.enum.map
        (fun p => ⟨p.2, "", none, none, none, none, none, none, none, none, some (now p.1)⟩) := by
  unfold PASchoolDistrictScraper.scrape_all_districts
  rw [PASchoolDistrictScraper.scrape_aux_fst, List.nil_append,
    process_from_blank fetch parse now hf district_names 0]
  rfl

/-- Witness for C3 at a concrete all-failing fetch. -/
theorem claim3_witness :
    (PASchoolDistrictScraper.scrape_all_districts (fun _ => none) (fun _ => ⟨[], []⟩)
        (fun _ => "T") ["Alpha"] "out.csv").1 =
      [⟨"Alpha", "", none, none, none, none, none, none, none, none, some "T"⟩] := by
  have h := claim3_record_despite_failures (fun _ => none) (fun _ => ⟨[], []⟩)
    (fun _ => "T") ["Alpha"] "out.csv" (fun u => rfl)
  simpa using h

/-- C6 counterexample: with an empty string as input name (the claim allows
any names), the aggregator produces a record whose district name is empty. -/
theorem claim6_counterexample :
    ¬ (∀ d ∈ (PASchoolDistrictScraper.scrape_all_districts (fun _ => none) (fun _ => ⟨[], []⟩)
        (fun _ => "T") [""] "out.csv").1, d.district_name ≠ "") := by
  decide

/-- C6 amended: records carry the input names verbatim, so whenever every
input name is non-empty, every record has a non-empty district name (the
other fields stay independently optional by type). -/
theorem claim6_amended (fetch : Fetch) (parse : Parse) (now : Nat → String)
    (district_names : List String) (output_file : String)
    (h : ∀ n ∈ district_names, n ≠ "") :
    ∀ d ∈ (PASchoolDistrictScraper.scrape_all_districts fetch parse now district_names output_file).1,
      d.district_name ≠ "" := by
  intro d hd
  have hmap : ((PASchoolDistrictScraper.scrape_all_districts fetch parse now district_names
      output_file).1).map (fun x => x.district_name) = district_names := by
    unfold PASchoolDistrictScraper.scrape_all_districts
    rw [PASchoolDistrictScraper.scrape_aux_fst, List.nil_append]
    exact PASchoolDistrictScraper.process_from_map_name fetch parse now district_names 0
  apply h
  rw [← hmap]
  exact List.mem_map_of_mem _ hd

/-- Witness for the amended C6 at a concrete non-empty name. -/
theorem claim6_witness :
    ((PASchoolDistrictScraper.scrape_all_districts (fun _ => none) (fun _ => ⟨[], []⟩)
        (fun _ => "T") ["Alpha"] "out.csv").1.all (fun d => !(d.district_name == ""))) = true := by
  have h := claim6_amended (fun _ => none) (fun _ => ⟨[], []⟩) (fun _ => "T") ["Alpha"] "out.csv"
    (by decide)
  rw [List.all_eq_true]
  intro d hd
  simpa using h d hd

/-- C2: the aggregator's writes are exactly one `temp_`-prefixed full
snapshot after every tenth record plus the final full write, each snapshot
being a prefix of the final results (each write replaces the file, so the
checkpoint is overwritten, never appended); instantiated at 23 distinct
districts this gives checkpoints of exactly 10 and 20 records, a final file
of exactly 23 records, and no duplicate records. -/
theorem claim2_checkpointing (fetch : Fetch) (parse : Parse) (now : Nat → String)
    (district_names : List String) (output_file : String) :
    (PASchoolDistrictScraper.scrape_all_districts fetch parse now district_names output_file).2 =
      ((List.range district_names.length).filterMap fun j =>
        if (j + 1) % 10 = 0 then
          some ("temp_" ++ output_file,
            (PASchoolDistrictScraper.scrape_all_districts fetch parse now district_names
              output_file).1.take (j + 1))
        else none)
      ++ [(output_file,
            (PASchoolDistrictScraper.scrape_all_districts fetch parse now district_names
              output_file).1)] ∧
    (district_names.length = 23 → district_names.Nodup →
      (PASchoolDistrictScraper.scrape_all_districts fetch parse now district_names output_file).2 =
        [("temp_" ++ output_file,
           (PASchoolDistrictScraper.scrape_all_districts fetch parse now district_names
             output_file).1.take 10),
         ("temp_" ++ output_file,
           (PASchoolDistrictScraper.scrape_all_districts fetch parse now district_names
             output_file).1.take 20),
         (output_file,
           (PASchoolDistrictScraper.scrape_all_districts fetch parse now district_names
             output_file).1)] ∧
      ((PASchoolDistrictScraper.scrape_all_districts fetch parse now district_names
          output_file).1.take 10).length = 10 ∧
      (PASchoolDistrictScraper.scrape_all_districts fetch parse now district_names
          output_file).1.length = 23 ∧
      (PASchoolDistrictScraper.scrape_all_districts fetch parse now district_names
          output_file).1.Nodup) := by
  have hfst : (PASchoolDistrictScraper.scrape_all_districts fetch parse now district_names
      output_file).1 = PASchoolDistrictScraper.process_from fetch parse now 0 district_names := by
    unfold PASchoolDistrictScraper.scrape_all_districts
    rw [PASchoolDistrictScraper.scrape_aux_fst, List.nil_append]
  have hev : (PASchoolDistrictScraper.scrape_all_districts fetch parse now district_names
      output_file).2 =
      ((List.range district_names.length).filterMap fun j =>
        if (j + 1) % 10 = 0 then
          some ("temp_" ++ output_file,
            (PASchoolDistrictScraper.scrape_all_districts fetch parse now district_names
              output_file).1.take (j + 1))
        else none)
      ++ [(output_file,
            (PASchoolDistrictScraper.scrape_all_districts fetch parse now district_names
              output_file).1)] := by
    conv_lhs => rw [PASchoolDistrictScraper.scrape_all_districts,
      PASchoolDistrictScraper.scrape_aux_snd]
    congr 1
    · apply List.filterMap_congr
      intro j _
      have h1 : 0 + j + 1 = j + 1 := by omega
      rw [h1, List.nil_append, PASchoolDistrictScraper.process_from_take, hfst]
    · rw [List.nil_append, hfst]
  have hlen : (PASchoolDistrictScraper.scrape_all_districts fetch parse now district_names
      output_file).1.length = district_names.length := by
    rw [hfst, PASchoolDistrictScraper.process_from_length]
  refine ⟨hev, fun h23 hnd => ?_⟩
  have hmap : ((PASchoolDistrictScraper.scrape_all_districts fetch parse now district_names
      output_file).1).map (fun d => d.district_name) = district_names := by
    rw [hfst]
    exact PASchoolDistrictScraper.process_from_map_name fetch parse now district_names 0
  refine ⟨?_, ?_, ?_, ?_⟩
  · rw [hev, h23]
    have hr : List.range 23 = [0, 1, 2, 3, 4, 5, 6, 7, 8, 9, 10, 11, 12, 13, 14,
      15, 16, 17, 18, 19, 20, 21, 22] := rfl
    rw [hr]
    norm_num [List.filterMap_cons]
  · rw [List.length_take, hlen, h23]
    decide
  · rw [hlen, h23]
  · exact List.Nodup.of_map _ (hmap.symm ▸ hnd)

/-- Twenty-three distinct district names used to instantiate C2. -/
def names23 : List String :=
  ["d01", "d02", "d03", "d04", "d05", "d06", "d07", "d08", "d09", "d10", "d11",
   "d12", "d13", "d14", "d15", "d16", "d17", "d18", "d19", "d20", "d21", "d22", "d23"]

/-- Witness for C2 at a concrete 23-district run. -/
theorem claim2_witness :
    (PASchoolDistrictScraper.scrape_all_districts (fun _ => none) (fun _ => ⟨[], []⟩)
        (fun _ => "T") names23 "out.csv").1.length = 23 ∧
    (PASchoolDistrictScraper.scrape_all_districts (fun _ => none) (fun _ => ⟨[], []⟩)
        (fun _ => "T") names23 "out.csv").1.Nodup ∧
    ((PASchoolDistrictScraper.scrape_all_districts (fun _ => none) (fun _ => ⟨[], []⟩)
        (fun _ => "T") names23 "out.csv").2.map Prod.fst) =
      ["temp_out.csv", "temp_out.csv", "out.csv"] := by
  have h := (claim2_checkpointing (fun _ => none) (fun _ => ⟨[], []⟩)
    (fun _ => "T") names23 "out.csv").2 (by decide) (by decide)
  refine ⟨h.2.2.1, h.2.2.2, ?_⟩
  rw [h.1]
  rfl

/-- What `scrape_district_data` stores as `niche_rating`, by cases. -/
theorem niche_scrape_rating_eq (fetch : Fetch) (parse : Parse) (district_url : String) :
    (NicheScraper.scrape_district_data fetch parse district_url).niche_rating =
      match fetch district_url with
      | none => none
      | some source =>
        if source = "" then none
        else
          match findDiv classGradeRating (parse source) with
          | some grade_elem => gradeSearch (pyStrip grade_elem.text)
          | none => none := by
  unfold NicheScraper.scrape_district_data
  split
  · rfl
  · rename_i source heq
    by_cases hse : source = ""
    · simp only [if_pos hse]
      rfl
    · simp only [if_neg hse]
      split
      · split
        · rename_i g hg
          exact hg.symm
        · rename_i hg
          exact hg.symm
      · rfl

/-- C1 counterexample: the grade regex is an unanchored `re.search`, so the
multi-character non-grade text "Contact" still produces `niche_rating = "C"`
(its first character lies in `A`–`F`). -/
theorem claim1_counterexample :
    (NicheScraper.scrape_district_data (fun _ => some "page")
        (fun _ => ⟨[⟨"div", ["rating"], none, "Contact"⟩], []⟩)
        "https://www.niche.com/k12/d/x-pennsylvania/").niche_rating = some "C" ∧
    isGradeToken "Contact" = false ∧ "Contact".length ≠ 1 := by
  refine ⟨rfl, rfl, by decide⟩

/-- C1 amended: any `niche_rating` that is produced is a well-formed grade
token, and when a grade element is found, a rating is produced exactly when
the element's stripped text contains some character in `A`–`F` anywhere —
so non-grade text containing such a letter still yields a rating. -/
theorem claim1_amended (fetch : Fetch) (parse : Parse) (district_url : String) :
    (∀ g, (NicheScraper.scrape_district_data fetch parse district_url).niche_rating = some g →
      isGradeToken g = true) ∧
    (∀ source grade_elem, fetch district_url = some source → source ≠ "" →
      findDiv classGradeRating (parse source) = some grade_elem →
      ((NicheScraper.scrape_district_data fetch parse district_url).niche_rating.isSome = true ↔
        ∃ c ∈ (pyStrip grade_elem.text).toList, 'A' ≤ c ∧ c ≤ 'F')) := by
  constructor
  · intro g hg
    rw [niche_scrape_rating_eq] at hg
    split at hg
    · exact absurd hg (by simp)
    · split at hg
      · exact absurd hg (by simp)
      · split at hg
        · exact gradeSearchL_isGradeToken _ g hg
        · exact absurd hg (by simp)
  · intro source grade_elem hs hne hfind
    rw [niche_scrape_rating_eq, hs]
    simp only [hne, if_neg, hfind]
    exact gradeSearchL_isSome_iff (pyStrip grade_elem.text).toList

/-- Witness for the amended C1 at the "Contact" element. -/
theorem claim1_witness :
    isGradeToken "C" = true ∧
    (NicheScraper.scrape_district_data (fun _ => some "page")
        (fun _ => ⟨[⟨"div", ["rating"], none, "Contact"⟩], []⟩)
        "u").niche_rating.isSome = true := by
  constructor
  · exact (claim1_amended (fun _ => some "page")
      (fun _ => ⟨[⟨"div", ["rating"], none, "Contact"⟩], []⟩) "u").1 "C" rfl
  · exact ((claim1_amended (fun _ => some "page")
      (fun _ => ⟨[⟨"div", ["rating"], none, "Contact"⟩], []⟩) "u").2 "page"
      ⟨"div", ["rating"], none, "Contact"⟩ rfl (by decide) rfl).mpr (by decide)

/-- Fetch oracle for the C4 counterexample: the guessed direct URL answers
with an empty body, every other URL fails. -/
def fetchEmptyDirect : Fetch := fun u =>
  if u = NicheScraper.potential_url "Foo District" "pennsylvania" then some "" else none

/-- C4 counterexample: the direct-URL fetch succeeds and the body (empty)
does not contain "404", yet the guessed URL is not returned — `if source
and ...` also requires a non-empty body, so the code falls back (and the
fallback fetch fails, giving `none`). -/
theorem claim4_counterexample :
    fetchEmptyDirect (NicheScraper.potential_url "Foo District" "pennsylvania") = some "" ∧
    substrB "404" "" = false ∧
    NicheScraper.search_district fetchEmptyDirect (fun _ => ⟨[], []⟩)
      "Foo District" "pennsylvania" = none := by
  refine ⟨?_, rfl, ?_⟩ <;> decide

/-- C4 amended: the guessed slug URL is accepted exactly when its fetch
returns a *non-empty* body not containing "404"; a failed fetch, an empty
body, or a body containing "404" all divert to the keyword-search-and-scan
fallback. -/
theorem claim4_amended (fetch : Fetch) (parse : Parse) (district_name state : String) :
    (∀ source, fetch (NicheScraper.potential_url district_name state) = some source →
      source ≠ "" → substrB "404" source = false →
      NicheScraper.search_district fetch parse district_name state =
        some (NicheScraper.potential_url district_name state)) ∧
    (∀ source, fetch (NicheScraper.potential_url district_name state) = some source →
      (source = "" ∨ substrB "404" source = true) →
      NicheScraper.search_district fetch parse district_name state =
        NicheScraper.search_fallback fetch parse district_name state) ∧
    (fetch (NicheScraper.potential_url district_name state) = none →
      NicheScraper.search_district fetch parse district_name state =
        NicheScraper.search_fallback fetch parse district_name state) := by
  refine ⟨?_, ?_, ?_⟩
  · intro source hs hne h404
    unfold NicheScraper.search_district
    rw [hs]
    simp only [if_pos (And.intro hne h404)]
  · intro source hs hcase
    unfold NicheScraper.search_district
    rw [hs]
    have hneg : ¬(source ≠ "" ∧ substrB "404" source = false) := by
      rcases hcase with h | h
      · intro hc; exact hc.1 h
      · intro hc; rw [h] at hc; exact absurd hc.2 (by simp)
    simp only [if_neg hneg]
  · intro hnone
    unfold NicheScraper.search_district
    rw [hnone]

/-- Witness for the amended C4: a non-empty 404-free body gets the guessed
URL accepted. -/
theorem claim4_witness :
    NicheScraper.search_district (fun _ => some "okpage") (fun _ => ⟨[], []⟩)
      "Foo" "pennsylvania" = some (NicheScraper.potential_url "Foo" "pennsylvania") :=
  (claim4_amended (fun _ => some "okpage") (fun _ => ⟨[], []⟩) "Foo" "pennsylvania").1
    "okpage" rfl (by decide) (by decide)

/-- C5 counterexample: a successful fetch whose body is empty (`if not
source`) yields the empty map, which does not contain the source URL —
against "always includes the source URL ... for every invocation". -/
theorem claim5_counterexample :
    (fun _ => (some "" : Option String)) "https://www.greatschools.org/pennsylvania/x-district/"
      ≠ none ∧
    (GreatSchoolsScraper.scrape_district_data (fun _ => some "") (fun _ => ⟨[], []⟩)
      "https://www.greatschools.org/pennsylvania/x-district/").greatschools_url = none := by
  exact ⟨by decide, rfl⟩

/-- C5 amended: a failed fetch — and likewise an empty body, which the code
treats identically — yields the empty map for all three extractors, and any
fetch with a non-empty body yields a map containing the source URL. -/
theorem claim5_amended (fetch : Fetch) (parse : Parse) (district_url : String) :
    (fetch district_url = none →
      GreatSchoolsScraper.scrape_district_data fetch parse district_url = GSData.empty ∧
      NicheScraper.scrape_district_data fetch parse district_url = NicheData.empty ∧
      SchoolDiggerScraper.scrape_district_data fetch parse district_url = SDData.empty) ∧
    (fetch district_url = some "" →
      GreatSchoolsScraper.scrape_district_data fetch parse district_url = GSData.empty ∧
      NicheScraper.scrape_district_data fetch parse district_url = NicheData.empty ∧
      SchoolDiggerScraper.scrape_district_data fetch parse district_url = SDData.empty) ∧
    (∀ source, fetch district_url = some source → source ≠ "" →
      (GreatSchoolsScraper.scrape_district_data fetch parse district_url).greatschools_url =
        some district_url ∧
      (NicheScraper.scrape_district_data fetch parse district_url).niche_url =
        some district_url ∧
      (SchoolDiggerScraper.scrape_district_data fetch parse district_url).schooldigger_url =
        some district_url) := by
  refine ⟨?_, ?_, ?_⟩
  · intro h
    refine ⟨?_, ?_, ?_⟩ <;>
      simp [GreatSchoolsScraper.scrape_district_data, NicheScraper.scrape_district_data,
        SchoolDiggerScraper.scrape_district_data, h]
  · intro h
    refine ⟨?_, ?_, ?_⟩ <;>
      simp [GreatSchoolsScraper.scrape_district_data, NicheScraper.scrape_district_data,
        SchoolDiggerScraper.scrape_district_data, h]
  · intro source hs hne
    refine ⟨?_, ?_, ?_⟩ <;>
      simp [GreatSchoolsScraper.scrape_district_data, NicheScraper.scrape_district_data,
        SchoolDiggerScraper.scrape_district_data, hs, hne]

/-- Witness for the amended C5 at a concrete non-empty page. -/
theorem claim5_witness :
    (GreatSchoolsScraper.scrape_district_data (fun _ => some "x") (fun _ => ⟨[], []⟩)
      "U").greatschools_url = some "U" ∧
    (NicheScraper.scrape_district_data (fun _ => some "x") (fun _ => ⟨[], []⟩)
      "U").niche_url = some "U" ∧
    (SchoolDiggerScraper.scrape_district_data (fun _ => some "x") (fun _ => ⟨[], []⟩)
      "U").schooldigger_url = some "U" :=
  (claim5_amended (fun _ => some "x") (fun _ => ⟨[], []⟩) "U").2.2 "x" rfl (by decide)

/-- C10 counterexample: with `state = "texas"`, the Niche direct-guess path
returns the slugged URL without any link filtering, and that URL matches
neither the `/k12/d/.*pennsylvania` pattern nor even contains
"pennsylvania". -/
theorem claim10_counterexample :
    NicheScraper.search_district (fun _ => some "okay") (fun _ => ⟨[], []⟩)
      "Foo District" "texas" = some "https://www.niche.com/k12/d/foo-district-texas/" ∧
    hrefPANiche "https://www.niche.com/k12/d/foo-district-texas/" = false ∧
    substrB "pennsylvania" "https://www.niche.com/k12/d/foo-district-texas/" = false := by
  refine ⟨by decide, by decide, by decide⟩

/-- C10 amended: every URL the GreatSchools locate step returns comes from an
anchor matching the Pennsylvania pattern, and likewise for Niche's
search-and-scan fallback — but Niche's direct-guess path returns the
slug-plus-`state` URL with no filtering, so a non-default `state` can yield
a non-Pennsylvania URL. -/
theorem claim10_amended (fetch : Fetch) (parse : Parse) (district_name state : String) :
    (∀ u, GreatSchoolsScraper.search_district fetch parse district_name state = some u →
      ∃ href, hrefPAGS href = true ∧ u = urljoin gsBase href) ∧
    (∀ u, NicheScraper.search_fallback fetch parse district_name state = some u →
      ∃ href, hrefPANiche href = true ∧ u = urljoin nicheBase href) ∧
    (∀ u, NicheScraper.search_district fetch parse district_name state = some u →
      u = NicheScraper.potential_url district_name state ∨
        ∃ href, hrefPANiche href = true ∧ u = urljoin nicheBase href) := by
  have hfb : ∀ u, NicheScraper.search_fallback fetch parse district_name state = some u →
      ∃ href, hrefPANiche href = true ∧ u = urljoin nicheBase href := by
    intro u hu
    simp only [NicheScraper.search_fallback] at hu
    split at hu
    · exact absurd hu (by simp)
    · split at hu
      · exact absurd hu (by simp)
      · exact scanLinks_findLinks_some nicheBase district_name hrefPANiche _ u hu
  refine ⟨?_, hfb, ?_⟩
  · intro u hu
    simp only [GreatSchoolsScraper.search_district] at hu
    split at hu
    · exact absurd hu (by simp)
    · split at hu
      · exact absurd hu (by simp)
      · exact scanLinks_findLinks_some gsBase district_name hrefPAGS _ u hu
  · intro u hu
    unfold NicheScraper.search_district at hu
    split at hu
    · split at hu
      · exact Or.inl (Option.some_inj.mp hu).symm
      · exact Or.inr (hfb u hu)
    · exact Or.inr (hfb u hu)

/-- Witness for the amended C10 at a concrete matching GreatSchools link. -/
theorem claim10_witness :
    ∃ href, hrefPAGS href = true ∧
      "https://www.greatschools.org/pennsylvania/foo-district/" = urljoin gsBase href :=
  (claim10_amended (fun _ => some "page")
      (fun _ => ⟨[⟨"a", [], some "/pennsylvania/foo-district/", "Foo District page"⟩], []⟩)
      "Foo District" "PA").1
    "https://www.greatschools.org/pennsylvania/foo-district/" (by decide)

/-- C7 counterexample: a 304 response is non-2xx, yet `raise_for_status`
does not raise for it, so `get_page_source` returns the body rather than
`None`. -/
theorem claim7_counterexample :
    get_page_source (fun _ _ => HttpAttempt.response 304 "cached") "https://example.org/" =
      some "cached" ∧
    ¬ (200 ≤ 304 ∧ 304 < 300) := by
  exact ⟨rfl, by decide⟩

/-- C7 amended: the fetcher returns `None` on transport failure and on 4xx
or 5xx statuses, returns the body for any other status (so a non-2xx,
non-error status such as 304 yields the body, not `None`), never raises
(it is a total function), and consults only the first GET attempt — no
retries. -/
theorem claim7_amended (http : String → Nat → HttpAttempt) (url : String) :
    (http url 0 = HttpAttempt.failure → get_page_source http url = none) ∧
    (∀ status body, http url 0 = HttpAttempt.response status body →
      ((400 ≤ status ∧ status < 600) → get_page_source http url = none) ∧
      ((status < 400 ∨ 600 ≤ status) → get_page_source http url = some body)) ∧
    (∀ http2 : String → Nat → HttpAttempt, http2 url 0 = http url 0 →
      get_page_source http2 url = get_page_source http url) := by
  refine ⟨?_, ?_, ?_⟩
  · intro h
    unfold get_page_source
    rw [h]
  · intro status body h
    constructor
    · intro hr
      have hb : raiseForStatus status = true := by
        unfold raiseForStatus
        rw [Bool.and_eq_true, decide_eq_true_eq, decide_eq_true_eq]
        exact ⟨hr.1, hr.2⟩
      unfold get_page_source
      rw [h]
      simp [hb]
    · intro hr
      have hb : raiseForStatus status = false := by
        unfold raiseForStatus
        rcases hr with h4 | h6
        · rw [decide_eq_false (by omega : ¬ 400 ≤ status), Bool.false_and]
        · rw [decide_eq_false (by omega : ¬ status < 600), Bool.and_false]
      unfold get_page_source
      rw [h]
      simp [hb]
  · intro http2 he
    unfold get_page_source
    rw [he]

/-- Witness for the amended C7: a 500 response yields `None`. -/
theorem claim7_witness :
    get_page_source (fun _ _ => HttpAttempt.response 500 "oops") "https://example.org/" = none :=
  ((claim7_amended (fun _ _ => HttpAttempt.response 500 "oops") "https://example.org/").2.1
    500 "oops" rfl).1 (by decide)
